import Mathlib

/-!
Shallow embedding of `scenario_generation/main.py`: a straight-line ETL
script that loads an l5kit scene dataset, hands the scene indices to an
extraction routine, and persists the returned arrays plus metadata.

The script is modelled as a function from a `World` (the command-line
arguments together with the behavior of the filesystem and of the
external collaborators) to a `Result`: the ordered trace of observable
events, the final outcome, and the contents of the two output files.
-/

namespace ScenGen

/-- The three command-line arguments parsed by `argparse`. -/
structure Args where
  config_file_name : String
  source_name : String
  verbose : Nat
deriving DecidableEq

/-- The nested configuration block resolved for the requested source key
(`cfg[args.source_name]`); the script only reads its `"key"` entry. -/
structure DatasetCfg where
  key : String
deriving DecidableEq

/-- The loaded configuration, seen as a mapping from source keys to their
dataset blocks (`cfg = l5kit_configs.load_config_data(config_file)`). -/
abbrev Config := List (String × DatasetCfg)

/-- An array-like value as handled by the script: a payload plus the
`.dtype` and `.shape` attributes the metadata pass reads. -/
structure NamedArray where
  data : List Int
  dtype : String
  shape : List Nat
deriving DecidableEq

/-- One record of `saved_mats_info`: the per-array metadata entry. -/
structure MatInfo where
  dtype : String
  shape : List Nat
  entity : String
deriving DecidableEq

/-- The `SimulationConfig` value object built in the script. -/
structure SimulationConfig where
  use_ego_gt : Bool
  use_agents_gt : Bool
  disable_new_agents : Bool
  distance_th_far : Nat
  distance_th_close : Nat
  num_simulation_steps : Nat
  start_frame_index : Nat
  show_info : Bool
deriving DecidableEq

/-- The `LocalDataManager(None)` object. -/
structure LocalDataManager where
  local_data_folder : Option String
deriving DecidableEq

/-- The opened chunked store; the script only observes `len(dataset_zarr.scenes)`. -/
structure ChunkedDataset where
  scenes : Nat
deriving DecidableEq

/-- The vectorizer built by `build_vectorizer(cfg, dm)`. -/
structure Vectorizer where
  cfg : Config
  dm : LocalDataManager
deriving DecidableEq

/-- The `EgoDatasetVectorized(cfg, dataset_zarr, vectorizer)` object. -/
structure EgoDatasetVectorized where
  cfg : Config
  zarr : ChunkedDataset
  vectorizer : Vectorizer
deriving DecidableEq

/-- The full argument tuple of the single `process_scenes_data` call, in
the source's positional order. -/
structure ProcessCall where
  scene_indices : List Nat
  dataset : EgoDatasetVectorized
  dataset_zarr : ChunkedDataset
  dm : LocalDataManager
  sim_cfg : SimulationConfig
  cfg : Config
  min_n_agents : Nat
  max_n_agents : Nat
  min_extent_length : Nat
  min_extent_width : Nat
  max_distance_map : Nat
  max_distance_agent : Nat
  verbose : Nat
deriving DecidableEq

/-- The object pickled into `info.pkl`: the dataset properties (modelled
by their guaranteed member, the valid-scene count), `saved_mats_info`,
and the git version string. -/
structure InfoContent where
  dataset_props_n_scenes : Nat
  saved_mats_info : List (String × MatInfo)
  git_version : String
deriving DecidableEq

/-- Observable events of one run, in execution order. -/
inductive Event where
  | mkdirFolder
  | mkdirDir
  | printStr (s : String)
  | printDataset
  | configLoaded
  | storeOpened
  | extractionCalled (c : ProcessCall)
  | gitQueried
  | writeH5 (entries : List (String × NamedArray))
  | writePkl (info : InfoContent)
deriving DecidableEq

/-- How a run ends: normal exit, or one of the three uncaught error
classes (missing input file, config key lookup, subprocess failure). -/
inductive Outcome where
  | ok
  | errFileNotFound
  | errKeyError
  | errSubprocess
deriving DecidableEq

/-- The observable effect of one run: the event trace, the outcome, and
the contents of `data.h5` and `info.pkl` (`none` when never written). -/
structure Result where
  events : List Event
  outcome : Outcome
  dataFile : Option (List (String × NamedArray))
  infoFile : Option InfoContent
deriving DecidableEq

/-- The environment a run executes in: contents of the dataset-root text
file (`none` = missing), pre-existence of the output folders, the loaded
configuration (`none` = config file missing), the scene count of the
store, the behavior of the extraction routine (its returned arrays and
its scene filter), and the git query result (`none` = subprocess error). -/
structure World where
  datasetDirFile : Option String
  saveFolderExists : Bool
  saveDirExists : Bool
  configLoad : Option Config
  storeScenes : Nat
  sceneValid : Nat → Bool
  extractedMats : List (String × NamedArray)
  gitResult : Option String

/-- `save_dir_name = 'l5kit_data_' + args.config_file_name + '_' + args.source_name`. -/
def save_dir_name (a : Args) : String :=
  "l5kit_data_" ++ a.config_file_name ++ "_" ++ a.source_name

/-- `save_folder = 'AVSG_Data'`. -/
def save_folder : String := "AVSG_Data"

/-- `save_dir_path = os.path.join(save_folder, save_dir_name)`. -/
def save_dir_path (a : Args) : String :=
  save_folder ++ "/" ++ save_dir_name a

/-- Whether `pat` occurs as a leading block of `l` (Python `startswith`
over characters, used to express the `in` substring test). -/
def charsLead : List Char → List Char → Bool
  | [], _ => true
  | _ :: _, [] => false
  | p :: ps, c :: cs => p == c && charsLead ps cs

/-- Whether `pat` occurs contiguously anywhere in `l`. -/
def charsWithin (pat : List Char) : List Char → Bool
  | [] => charsLead pat []
  | c :: cs => charsLead pat (c :: cs) || charsWithin pat cs

/-- Python's substring test `pat in s`. -/
def strContains (s pat : String) : Bool :=
  charsWithin pat.data s.data

/-- The entity classification of the metadata loop:
`'agents' if 'agents' in var_name else 'map'`. -/
def entityOf (var_name : String) : String :=
  if strContains var_name "agents" then "agents" else "map"

/-- The `saved_mats_info` dictionary built by the write loop: one record
per array, keyed by the array's name, capturing dtype, shape and entity. -/
def saved_mats_info (mats : List (String × NamedArray)) : List (String × MatInfo) :=
  mats.map fun p => (p.1, ⟨p.2.dtype, p.2.shape, entityOf p.1⟩)

/-- `start_frame_index = 2`. -/
def start_frame_index : Nat := 2

/-- `num_simulation_steps = 10`. -/
def num_simulation_steps : Nat := 10

/-- The `SimulationConfig(...)` value constructed in the script. -/
def sim_cfg : SimulationConfig :=
  { use_ego_gt := false
    use_agents_gt := false
    disable_new_agents := true
    distance_th_far := 500
    distance_th_close := 50
    num_simulation_steps := num_simulation_steps
    start_frame_index := start_frame_index
    show_info := true }

/-- `min_n_agents = 2`. -/
def min_n_agents : Nat := 2

/-- `max_n_agents = 8`. -/
def max_n_agents : Nat := 8

/-- `min_extent_length = 3`. -/
def min_extent_length : Nat := 3

/-- `min_extent_width = 1`. -/
def min_extent_width : Nat := 1

/-- `max_distance_map = 40`. -/
def max_distance_map : Nat := 40

/-- `max_distance_agent = 30`. -/
def max_distance_agent : Nat := 30

/-- The six numeric filter-threshold arguments of a `process_scenes_data`
call, in their positional order in the source call. -/
def thresholdArgs (c : ProcessCall) : List Nat :=
  [c.min_n_agents, c.max_n_agents, c.min_extent_length, c.min_extent_width,
   c.max_distance_map, c.max_distance_agent]

/-- Modelled from the spec: `process_scenes_data` lives in the module
`extract_scenario_dataset`, which is not among the source files, so it is
modelled from the spec's contract: it "returns (a) a mapping of named
output arrays and (b) a properties mapping containing at least the count
of scenes that passed filtering". The world supplies the returned arrays
and the scene filter; the returned valid-scene count is the number of
submitted indices that pass the filter. -/
def process_scenes_data (w : World) (c : ProcessCall) : List (String × NamedArray) × Nat :=
  (w.extractedMats, (c.scene_indices.filter w.sceneValid).length)

/-- The warning printed when the target output directory already exists. -/
def overrideWarning (a : Args) : String :=
  "Save path " ++ save_dir_path a ++ " already exists, will be override..."

/-- The `Dataset source: ...` summary line. -/
def datasetSourceLine (key : String) (n : Nat) : String :=
  "Dataset source: " ++ key ++ ", number of scenes total: " ++ toString n

/-- The final summary line: `print(f'Saved data of {n_scenes} valid scenes
our of {len(scene_indices)} scenes at ', save_dir_path)`; the two-argument
`print` joins its arguments with one space. -/
def finalLine (nValid nTotal : Nat) (a : Args) : String :=
  "Saved data of " ++ toString nValid ++ " valid scenes our of " ++ toString nTotal
    ++ " scenes at " ++ " " ++ save_dir_path a

/-- The directory-setup step (source lines 50-56): create the parent
folder when absent; then warn if the target subdirectory exists, else
create it. -/
def setupEvents (a : Args) (w : World) : List Event :=
  (if w.saveFolderExists then [] else [Event.mkdirFolder]) ++
  (if w.saveDirExists then [Event.printStr (overrideWarning a)] else [Event.mkdirDir])

/-- The run from the configuration load onward (source lines 66-111);
the returned events do not include the setup events. -/
def runAfterSetup (a : Args) (w : World) : Result :=
  match w.configLoad with
  | none => ⟨[], Outcome.errFileNotFound, none, none⟩
  | some cfg =>
    match List.lookup a.source_name cfg with
    | none => ⟨[Event.configLoaded], Outcome.errKeyError, none, none⟩
    | some dataset_cfg =>
      let dm : LocalDataManager := ⟨none⟩
      let dataset_zarr : ChunkedDataset := ⟨w.storeScenes⟩
      let n_scenes := dataset_zarr.scenes
      let vectorizer : Vectorizer := ⟨cfg, dm⟩
      let dataset : EgoDatasetVectorized := ⟨cfg, dataset_zarr, vectorizer⟩
      let scene_indices := List.range n_scenes
      let call : ProcessCall :=
        ⟨scene_indices, dataset, dataset_zarr, dm, sim_cfg, cfg,
         min_n_agents, max_n_agents, min_extent_length, min_extent_width,
         max_distance_map, max_distance_agent, a.verbose⟩
      let res := process_scenes_data w call
      let saved_mats := res.1
      let n_valid := res.2
      match w.gitResult with
      | none =>
        ⟨[Event.configLoaded, Event.storeOpened, Event.printDataset,
          Event.printStr (datasetSourceLine dataset_cfg.key n_scenes),
          Event.extractionCalled call, Event.gitQueried],
         Outcome.errSubprocess, none, none⟩
      | some git_version =>
        let info := saved_mats_info saved_mats
        let pkl : InfoContent := ⟨n_valid, info, git_version⟩
        ⟨[Event.configLoaded, Event.storeOpened, Event.printDataset,
          Event.printStr (datasetSourceLine dataset_cfg.key n_scenes),
          Event.extractionCalled call, Event.gitQueried,
          Event.writeH5 saved_mats, Event.writePkl pkl,
          Event.printStr (finalLine n_valid scene_indices.length a)],
         Outcome.ok, some saved_mats, some pkl⟩

/-- One full run of the script. Reading the dataset-root file (source
line 30) precedes every directory creation; the setup events precede the
configuration load. -/
def run (a : Args) (w : World) : Result :=
  match w.datasetDirFile with
  | none => ⟨[], Outcome.errFileNotFound, none, none⟩
  | some _ =>
    let r := runAfterSetup a w
    ⟨setupEvents a w ++ r.events, r.outcome, r.dataFile, r.infoFile⟩

/-! Concrete sample inputs used to exercise the theorems. -/

def sampleArgs : Args := ⟨"config_sample", "train_data_loader", 0⟩

def sampleKeyCfg : DatasetCfg := ⟨"scenes/train.zarr"⟩

def sampleCfg : Config := [("train_data_loader", sampleKeyCfg)]

def sampleMats : List (String × NamedArray) :=
  [("agents_feat", ⟨[1, 2], "float64", [2]⟩), ("map_elems", ⟨[3], "int64", [1]⟩)]

def sampleWorld : World :=
  { datasetDirFile := some "/data/l5kit"
    saveFolderExists := false
    saveDirExists := false
    configLoad := some sampleCfg
    storeScenes := 5
    sceneValid := fun i => decide (i < 3)
    extractedMats := sampleMats
    gitResult := some "abc1234" }

def sampleCall : ProcessCall :=
  ⟨List.range 5, ⟨sampleCfg, ⟨5⟩, ⟨sampleCfg, ⟨none⟩⟩⟩, ⟨5⟩, ⟨none⟩, sim_cfg, sampleCfg,
   min_n_agents, max_n_agents, min_extent_length, min_extent_width,
   max_distance_map, max_distance_agent, 0⟩

def argsNoKey : Args := ⟨"config_sample", "test_data_loader", 0⟩

def worldNoRoot : World := { sampleWorld with datasetDirFile := none }

def worldDirExists : World := { sampleWorld with saveDirExists := true }

def worldGitFails : World := { sampleWorld with gitResult := none }

/-! Helper lemmas about the embedding. -/

/-- Counting metadata entries with a given key counts the arrays with
that name. -/
theorem countP_saved_mats_info (mats : List (String × NamedArray)) (nm : String) :
    (saved_mats_info mats).countP (fun e => e.1 == nm) = (mats.map Prod.fst).count nm := by
  simp only [saved_mats_info, List.countP_map, List.count, Function.comp]
  rfl

/-- The setup step only creates directories and prints the override
warning. -/
theorem mem_setupEvents (a : Args) (w : World) (e : Event) (h : e ∈ setupEvents a w) :
    e = Event.mkdirFolder ∨ e = Event.mkdirDir ∨ e = Event.printStr (overrideWarning a) := by
  unfold setupEvents at h
  rcases List.mem_append.mp h with h | h
  · split at h <;> simp_all
  · split at h <;> simp_all

/-- The part of the run after the setup step never creates the target
directory. -/
theorem mkdirDir_notin_runAfterSetup (a : Args) (w : World) :
    Event.mkdirDir ∉ (runAfterSetup a w).events := by
  cases hc : w.configLoad with
  | none => simp [runAfterSetup, hc]
  | some cfg =>
    cases hl : List.lookup a.source_name cfg with
    | none => simp [runAfterSetup, hc, hl]
    | some d =>
      cases hg : w.gitResult with
      | none => simp [runAfterSetup, hc, hl, hg]
      | some g => simp [runAfterSetup, hc, hl, hg]

/-- The setup step never opens the store. -/
theorem storeOpened_notin_setupEvents (a : Args) (w : World) :
    Event.storeOpened ∉ setupEvents a w := by
  intro h
  rcases mem_setupEvents a w _ h with h | h | h <;> simp at h

/-- The setup step never writes the array container file. -/
theorem writeH5_notin_setupEvents (a : Args) (w : World) (m : List (String × NamedArray)) :
    Event.writeH5 m ∉ setupEvents a w := by
  intro h
  rcases mem_setupEvents a w _ h with h | h | h <;> simp at h

/-- The setup step never writes the metadata file. -/
theorem writePkl_notin_setupEvents (a : Args) (w : World) (i : InfoContent) :
    Event.writePkl i ∉ setupEvents a w := by
  intro h
  rcases mem_setupEvents a w _ h with h | h | h <;> simp at h

/-! Claim theorems. -/

/-- Claim C5: the derived output directory path is the fixed parent
folder joined with the fixed prefix, the config identifier, an
underscore, and the source identifier; two runs with equal identifiers
derive equal paths. -/
theorem save_dir_path_deterministic (a b : Args)
    (h1 : a.config_file_name = b.config_file_name)
    (h2 : a.source_name = b.source_name) :
    save_dir_path a =
      save_folder ++ "/" ++ ("l5kit_data_" ++ a.config_file_name ++ "_" ++ a.source_name) ∧
    save_dir_path a = save_dir_path b :=
  ⟨rfl, by simp [save_dir_path, save_dir_name, h1, h2]⟩

/-- Witness for C5 at concrete identifiers. -/
theorem save_dir_path_deterministic_witness :
    save_dir_path sampleArgs =
      save_folder ++ "/" ++ ("l5kit_data_" ++ sampleArgs.config_file_name ++ "_"
        ++ sampleArgs.source_name) ∧
    save_dir_path sampleArgs = save_dir_path ⟨"config_sample", "train_data_loader", 1⟩ :=
  save_dir_path_deterministic sampleArgs ⟨"config_sample", "train_data_loader", 1⟩ rfl rfl

/-- Claim C7: when the dataset-root text file is missing, the run aborts
with a file-not-found error before any output directory is created, and
no output file is written. -/
theorem missing_dataset_root_aborts_early (a : Args) (w : World)
    (h : w.datasetDirFile = none) :
    (run a w).outcome = Outcome.errFileNotFound ∧
    (run a w).events = [] ∧
    Event.mkdirFolder ∉ (run a w).events ∧
    Event.mkdirDir ∉ (run a w).events ∧
    (run a w).dataFile = none ∧
    (run a w).infoFile = none := by
  simp [run, h]

/-- Witness for C7 at a concrete world with the dataset-root file absent. -/
theorem missing_dataset_root_aborts_early_witness :
    (run sampleArgs worldNoRoot).outcome = Outcome.errFileNotFound ∧
    (run sampleArgs worldNoRoot).events = [] ∧
    Event.mkdirFolder ∉ (run sampleArgs worldNoRoot).events ∧
    Event.mkdirDir ∉ (run sampleArgs worldNoRoot).events ∧
    (run sampleArgs worldNoRoot).dataFile = none ∧
    (run sampleArgs worldNoRoot).infoFile = none :=
  missing_dataset_root_aborts_early sampleArgs worldNoRoot rfl

/-- Claim C1: every array returned by the extraction routine is written
under its own name into the container file, with exactly one metadata
entry keyed by the same name whose dtype and shape match the written
array's, and no metadata entry exists for an absent name. -/
theorem h5_and_metadata_correspond (a : Args) (w : World) (s g : String) (cfg : Config)
    (d : DatasetCfg)
    (hds : w.datasetDirFile = some s) (hcfg : w.configLoad = some cfg)
    (hlook : List.lookup a.source_name cfg = some d) (hgit : w.gitResult = some g)
    (hnd : (w.extractedMats.map Prod.fst).Nodup) :
    (run a w).dataFile = some w.extractedMats ∧
    (∃ pkl, (run a w).infoFile = some pkl ∧
      pkl.saved_mats_info = saved_mats_info w.extractedMats) ∧
    (∀ nm arr, (nm, arr) ∈ w.extractedMats →
      (saved_mats_info w.extractedMats).countP (fun e => e.1 == nm) = 1 ∧
      (nm, (⟨arr.dtype, arr.shape, entityOf nm⟩ : MatInfo)) ∈ saved_mats_info w.extractedMats) ∧
    (∀ nm, nm ∉ w.extractedMats.map Prod.fst →
      (saved_mats_info w.extractedMats).countP (fun e => e.1 == nm) = 0) := by
  refine ⟨?_, ?_, ?_, ?_⟩
  · simp [run, runAfterSetup, hds, hcfg, hlook, hgit, process_scenes_data]
  · refine ⟨⟨((List.range w.storeScenes).filter w.sceneValid).length,
      saved_mats_info w.extractedMats, g⟩, ?_, rfl⟩
    simp [run, runAfterSetup, hds, hcfg, hlook, hgit, process_scenes_data]
  · intro nm arr hmem
    refine ⟨?_, ?_⟩
    · rw [countP_saved_mats_info]
      exact List.count_eq_one_of_mem hnd (List.mem_map_of_mem Prod.fst hmem)
    · exact List.mem_map_of_mem _ hmem
  · intro nm hno
    rw [countP_saved_mats_info]
    exact List.count_eq_zero.mpr hno

/-- Witness for C1 at the sample run. -/
theorem h5_and_metadata_correspond_witness :
    (run sampleArgs sampleWorld).dataFile = some sampleWorld.extractedMats ∧
    (∃ pkl, (run sampleArgs sampleWorld).infoFile = some pkl ∧
      pkl.saved_mats_info = saved_mats_info sampleWorld.extractedMats) ∧
    (∀ nm arr, (nm, arr) ∈ sampleWorld.extractedMats →
      (saved_mats_info sampleWorld.extractedMats).countP (fun e => e.1 == nm) = 1 ∧
      (nm, (⟨arr.dtype, arr.shape, entityOf nm⟩ : MatInfo)) ∈
        saved_mats_info sampleWorld.extractedMats) ∧
    (∀ nm, nm ∉ sampleWorld.extractedMats.map Prod.fst →
      (saved_mats_info sampleWorld.extractedMats).countP (fun e => e.1 == nm) = 0) :=
  h5_and_metadata_correspond sampleArgs sampleWorld "/data/l5kit" "abc1234" sampleCfg
    sampleKeyCfg rfl rfl (by decide) rfl (by decide)

/-- Claim C2: on a completed run, the valid-scene count in the final
summary line never exceeds the number of scene indices submitted to the
extraction routine. -/
theorem printed_valid_count_le_total (a : Args) (w : World) (s g : String) (cfg : Config)
    (d : DatasetCfg)
    (hds : w.datasetDirFile = some s) (hcfg : w.configLoad = some cfg)
    (hlook : List.lookup a.source_name cfg = some d) (hgit : w.gitResult = some g) :
    ∃ nValid,
      (run a w).events.getLast? =
        some (Event.printStr (finalLine nValid (List.range w.storeScenes).length a)) ∧
      nValid ≤ (List.range w.storeScenes).length := by
  refine ⟨((List.range w.storeScenes).filter w.sceneValid).length, ?_,
    List.length_filter_le _ _⟩
  simp [run, runAfterSetup, hds, hcfg, hlook, hgit, process_scenes_data,
    List.getLast?_append]

/-- Witness for C2 at the sample run. -/
theorem printed_valid_count_le_total_witness :
    ∃ nValid,
      (run sampleArgs sampleWorld).events.getLast? =
        some (Event.printStr
          (finalLine nValid (List.range sampleWorld.storeScenes).length sampleArgs)) ∧
      nValid ≤ (List.range sampleWorld.storeScenes).length :=
  printed_valid_count_le_total sampleArgs sampleWorld "/data/l5kit" "abc1234" sampleCfg
    sampleKeyCfg rfl rfl (by decide) rfl

/-- Claim C3: with 5 scenes in the store and an extraction result with 3
valid scenes, the final console line is exactly the summary with the
valid count 3, the total 5, and the derived output path. -/
theorem final_line_three_of_five (a : Args) (w : World) (s g : String) (cfg : Config)
    (d : DatasetCfg)
    (hds : w.datasetDirFile = some s) (hcfg : w.configLoad = some cfg)
    (hlook : List.lookup a.source_name cfg = some d) (hgit : w.gitResult = some g)
    (hn : w.storeScenes = 5)
    (hv : ((List.range 5).filter w.sceneValid).length = 3) :
    (run a w).events.getLast? =
      some (Event.printStr
        ("Saved data of 3 valid scenes our of 5 scenes at  AVSG_Data/l5kit_data_"
          ++ a.config_file_name ++ "_" ++ a.source_name)) := by
  have hline : finalLine 3 5 a =
      "Saved data of 3 valid scenes our of 5 scenes at  AVSG_Data/l5kit_data_"
        ++ a.config_file_name ++ "_" ++ a.source_name := by
    have t3 : (toString 3 : String) = "3" := rfl
    have t5 : (toString 5 : String) = "5" := rfl
    simp [finalLine, save_dir_path, save_dir_name, save_folder, t3, t5,
      ← String.append_assoc]
  rw [← hline]
  simp [run, runAfterSetup, hds, hcfg, hlook, hgit, process_scenes_data, hn, hv,
    List.getLast?_append]

/-- Witness for C3 at the sample run (5 scenes, filter passing 3). -/
theorem final_line_three_of_five_witness :
    (run sampleArgs sampleWorld).events.getLast? =
      some (Event.printStr
        ("Saved data of 3 valid scenes our of 5 scenes at  AVSG_Data/l5kit_data_"
          ++ sampleArgs.config_file_name ++ "_" ++ sampleArgs.source_name)) :=
  final_line_three_of_five sampleArgs sampleWorld "/data/l5kit" "abc1234" sampleCfg
    sampleKeyCfg rfl rfl (by decide) rfl rfl (by decide)

/-- Counterexample to C4 as stated: in a concrete run the extraction
call passes six numeric filter thresholds, not seven. -/
theorem six_thresholds_counterexample :
    Event.extractionCalled sampleCall ∈ (run sampleArgs sampleWorld).events ∧
    (thresholdArgs sampleCall).length = 6 ∧
    ¬ (thresholdArgs sampleCall).length = 7 := by
  refine ⟨by decide, rfl, by decide⟩

/-- Claim C4 (amended to six thresholds): every run that reaches the
hand-off invokes the extraction routine with the full list of scene
indices, the dataset object, the raw store, the data manager, the
simulation-config value object, the loaded configuration, six numeric
filter thresholds, and the verbosity flag. -/
theorem extraction_call_arguments (a : Args) (w : World) (s : String) (cfg : Config)
    (d : DatasetCfg)
    (hds : w.datasetDirFile = some s) (hcfg : w.configLoad = some cfg)
    (hlook : List.lookup a.source_name cfg = some d) :
    ∃ c : ProcessCall,
      Event.extractionCalled c ∈ (run a w).events ∧
      c.scene_indices = List.range w.storeScenes ∧
      c.dataset = ⟨cfg, ⟨w.storeScenes⟩, ⟨cfg, ⟨none⟩⟩⟩ ∧
      c.dataset_zarr = ⟨w.storeScenes⟩ ∧
      c.dm = ⟨none⟩ ∧
      c.sim_cfg = sim_cfg ∧
      c.cfg = cfg ∧
      thresholdArgs c = [min_n_agents, max_n_agents, min_extent_length,
        min_extent_width, max_distance_map, max_distance_agent] ∧
      (thresholdArgs c).length = 6 ∧
      c.verbose = a.verbose := by
  refine ⟨⟨List.range w.storeScenes, ⟨cfg, ⟨w.storeScenes⟩, ⟨cfg, ⟨none⟩⟩⟩,
    ⟨w.storeScenes⟩, ⟨none⟩, sim_cfg, cfg, min_n_agents, max_n_agents,
    min_extent_length, min_extent_width, max_distance_map, max_distance_agent,
    a.verbose⟩, ?_, rfl, rfl, rfl, rfl, rfl, rfl, rfl, rfl, rfl⟩
  cases hg : w.gitResult with
  | none => simp [run, runAfterSetup, hds, hcfg, hlook, hg]
  | some g => simp [run, runAfterSetup, hds, hcfg, hlook, hg]

/-- Witness for the amended C4 at the sample run. -/
theorem extraction_call_arguments_witness :
    ∃ c : ProcessCall,
      Event.extractionCalled c ∈ (run sampleArgs sampleWorld).events ∧
      c.scene_indices = List.range sampleWorld.storeScenes ∧
      c.dataset = ⟨sampleCfg, ⟨sampleWorld.storeScenes⟩, ⟨sampleCfg, ⟨none⟩⟩⟩ ∧
      c.dataset_zarr = ⟨sampleWorld.storeScenes⟩ ∧
      c.dm = ⟨none⟩ ∧
      c.sim_cfg = sim_cfg ∧
      c.cfg = sampleCfg ∧
      thresholdArgs c = [min_n_agents, max_n_agents, min_extent_length,
        min_extent_width, max_distance_map, max_distance_agent] ∧
      (thresholdArgs c).length = 6 ∧
      c.verbose = sampleArgs.verbose :=
  extraction_call_arguments sampleArgs sampleWorld "/data/l5kit" sampleCfg
    sampleKeyCfg rfl rfl (by decide)

/-- Claim C6: when the requested source key is absent from the loaded
configuration, the run aborts with a key-lookup error after the config
is loaded and before the store is opened, and writes no output file. -/
theorem missing_source_key_aborts (a : Args) (w : World) (s : String) (cfg : Config)
    (hds : w.datasetDirFile = some s) (hcfg : w.configLoad = some cfg)
    (hmiss : List.lookup a.source_name cfg = none) :
    (run a w).outcome = Outcome.errKeyError ∧
    Event.configLoaded ∈ (run a w).events ∧
    Event.storeOpened ∉ (run a w).events ∧
    (run a w).dataFile = none ∧
    (run a w).infoFile = none := by
  have hev : (run a w).events = setupEvents a w ++ [Event.configLoaded] := by
    simp [run, runAfterSetup, hds, hcfg, hmiss]
  refine ⟨by simp [run, runAfterSetup, hds, hcfg, hmiss], ?_, ?_,
    by simp [run, runAfterSetup, hds, hcfg, hmiss],
    by simp [run, runAfterSetup, hds, hcfg, hmiss]⟩
  · rw [hev]
    simp
  · rw [hev]
    intro hmem
    rcases List.mem_append.mp hmem with h | h
    · exact storeOpened_notin_setupEvents a w h
    · simp at h

/-- Witness for C6 with a source key absent from the sample config. -/
theorem missing_source_key_aborts_witness :
    (run argsNoKey sampleWorld).outcome = Outcome.errKeyError ∧
    Event.configLoaded ∈ (run argsNoKey sampleWorld).events ∧
    Event.storeOpened ∉ (run argsNoKey sampleWorld).events ∧
    (run argsNoKey sampleWorld).dataFile = none ∧
    (run argsNoKey sampleWorld).infoFile = none :=
  missing_source_key_aborts argsNoKey sampleWorld "/data/l5kit" sampleCfg rfl rfl
    (by decide)

/-- Claim C8: a pre-existing target directory makes the setup step print
the override warning without recreating the directory or raising an
error; an absent target directory is created. -/
theorem existing_dir_warns_and_continues (a : Args) (w : World) (s : String)
    (hds : w.datasetDirFile = some s) :
    (w.saveDirExists = true →
      Event.printStr (overrideWarning a) ∈ (run a w).events ∧
      Event.mkdirDir ∉ (run a w).events) ∧
    (w.saveDirExists = false → Event.mkdirDir ∈ (run a w).events) ∧
    (run a w).outcome = (run a { w with saveDirExists := false }).outcome := by
  have hev : (run a w).events = setupEvents a w ++ (runAfterSetup a w).events := by
    simp [run, hds]
  refine ⟨?_, ?_, ?_⟩
  · intro hdir
    constructor
    · rw [hev]
      refine List.mem_append.mpr (Or.inl ?_)
      unfold setupEvents
      rw [hdir]
      cases w.saveFolderExists <;> simp
    · rw [hev]
      intro hmem
      rcases List.mem_append.mp hmem with h | h
      · unfold setupEvents at h
        rw [hdir] at h
        rcases List.mem_append.mp h with h | h
        · split at h <;> simp_all
        · simp at h
      · exact mkdirDir_notin_runAfterSetup a w h
  · intro hdir
    rw [hev]
    refine List.mem_append.mpr (Or.inl ?_)
    unfold setupEvents
    rw [hdir]
    cases w.saveFolderExists <;> simp
  · have h2 : ({ w with saveDirExists := false } : World).datasetDirFile = some s := hds
    simp only [run, hds, h2]
    rfl

/-- Witness for C8 at a world whose target directory already exists. -/
theorem existing_dir_warns_and_continues_witness :
    (worldDirExists.saveDirExists = true →
      Event.printStr (overrideWarning sampleArgs) ∈ (run sampleArgs worldDirExists).events ∧
      Event.mkdirDir ∉ (run sampleArgs worldDirExists).events) ∧
    (worldDirExists.saveDirExists = false →
      Event.mkdirDir ∈ (run sampleArgs worldDirExists).events) ∧
    (run sampleArgs worldDirExists).outcome =
      (run sampleArgs { worldDirExists with saveDirExists := false }).outcome :=
  existing_dir_warns_and_continues sampleArgs worldDirExists "/data/l5kit" rfl

/-- Claim C9: a metadata record's entity string is `"agents"` exactly
when the array name contains the substring `"agents"`, and `"map"`
otherwise. -/
theorem entity_tag_iff_agents_substring (mats : List (String × NamedArray)) (nm : String)
    (md : MatInfo) (h : (nm, md) ∈ saved_mats_info mats) :
    (md.entity = "agents" ↔ strContains nm "agents" = true) ∧
    (strContains nm "agents" = false → md.entity = "map") := by
  rcases List.mem_map.mp h with ⟨p, hp, heq⟩
  injection heq with h1 h2
  subst h1
  subst h2
  cases hc : strContains p.1 "agents" with
  | true => simp [entityOf, hc]
  | false => simp [entityOf, hc]

/-- Witness for C9 at a concrete metadata record. -/
theorem entity_tag_iff_agents_substring_witness :
    ((⟨"float64", [2], "agents"⟩ : MatInfo).entity = "agents" ↔
      strContains "agents_feat" "agents" = true) ∧
    (strContains "agents_feat" "agents" = false →
      (⟨"float64", [2], "agents"⟩ : MatInfo).entity = "map") :=
  entity_tag_iff_agents_substring sampleMats "agents_feat" ⟨"float64", [2], "agents"⟩
    (by decide)

/-- Claim C10: when the version-control query fails, the run aborts with
a subprocess error after the extraction hand-off and before either
output file is opened, so neither `data.h5` nor `info.pkl` is written. -/
theorem git_failure_leaves_no_outputs (a : Args) (w : World) (s : String) (cfg : Config)
    (d : DatasetCfg)
    (hds : w.datasetDirFile = some s) (hcfg : w.configLoad = some cfg)
    (hlook : List.lookup a.source_name cfg = some d) (hgit : w.gitResult = none) :
    ∃ c : ProcessCall,
      (run a w).events = setupEvents a w ++
        [Event.configLoaded, Event.storeOpened, Event.printDataset,
         Event.printStr (datasetSourceLine d.key w.storeScenes),
         Event.extractionCalled c, Event.gitQueried] ∧
      (run a w).outcome = Outcome.errSubprocess ∧
      (run a w).dataFile = none ∧
      (run a w).infoFile = none ∧
      (∀ m, Event.writeH5 m ∉ (run a w).events) ∧
      (∀ i, Event.writePkl i ∉ (run a w).events) := by
  have hev : (run a w).events = setupEvents a w ++
      [Event.configLoaded, Event.storeOpened, Event.printDataset,
       Event.printStr (datasetSourceLine d.key w.storeScenes),
       Event.extractionCalled
         ⟨List.range w.storeScenes, ⟨cfg, ⟨w.storeScenes⟩, ⟨cfg, ⟨none⟩⟩⟩,
          ⟨w.storeScenes⟩, ⟨none⟩, sim_cfg, cfg, min_n_agents, max_n_agents,
          min_extent_length, min_extent_width, max_distance_map, max_distance_agent,
          a.verbose⟩, Event.gitQueried] := by
    simp [run, runAfterSetup, hds, hcfg, hlook, hgit]
  refine ⟨_, hev, by simp [run, runAfterSetup, hds, hcfg, hlook, hgit],
    by simp [run, runAfterSetup, hds, hcfg, hlook, hgit],
    by simp [run, runAfterSetup, hds, hcfg, hlook, hgit], ?_, ?_⟩
  · intro m hmem
    rw [hev] at hmem
    rcases List.mem_append.mp hmem with h | h
    · exact writeH5_notin_setupEvents a w m h
    · simp at h
  · intro i hmem
    rw [hev] at hmem
    rcases List.mem_append.mp hmem with h | h
    · exact writePkl_notin_setupEvents a w i h
    · simp at h

/-- Witness for C10 at a world whose git query fails. -/
theorem git_failure_leaves_no_outputs_witness :
    ∃ c : ProcessCall,
      (run sampleArgs worldGitFails).events = setupEvents sampleArgs worldGitFails ++
        [Event.configLoaded, Event.storeOpened, Event.printDataset,
         Event.printStr (datasetSourceLine sampleKeyCfg.key worldGitFails.storeScenes),
         Event.extractionCalled c, Event.gitQueried] ∧
      (run sampleArgs worldGitFails).outcome = Outcome.errSubprocess ∧
      (run sampleArgs worldGitFails).dataFile = none ∧
      (run sampleArgs worldGitFails).infoFile = none ∧
      (∀ m, Event.writeH5 m ∉ (run sampleArgs worldGitFails).events) ∧
      (∀ i, Event.writePkl i ∉ (run sampleArgs worldGitFails).events) :=
  git_failure_leaves_no_outputs sampleArgs worldGitFails "/data/l5kit" sampleCfg
    sampleKeyCfg rfl rfl (by decide) rfl

end ScenGen
